import Mathlib

/-!
Verification of the L2TP/IPsec VPN action orchestrator (`src/index.js`)
against its natural-language specification.

The JavaScript source is shallowly embedded: each effectful function is
rendered as a pure Lean function over an explicit environment describing
the outcomes of its external commands, returning the trace of operations
it issued and/or its result.  String-scraping predicates (the readiness
regular expression, the gateway `via` capture, line trimming) are
translated character-for-character from the JavaScript semantics.
-/

/-! ## Character-list utilities (JS string semantics) -/

/-- Prepend a character to the first segment of a split result. -/
def consHead (c : Char) : List (List Char) → List (List Char)
  | [] => [[c]]
  | l :: ls => (c :: l) :: ls

/-- Split a character list at every separator satisfying `p`, mirroring
JavaScript `String.prototype.split` with a single-character separator:
separators are dropped and the segments between them are returned
(`split` on `""` yields `[""]`, on `"a\nb"` yields `["a", "b"]`). -/
def splitOnP (p : Char → Bool) : List Char → List (List Char)
  | [] => [[]]
  | c :: rest =>
    if p c then [] :: splitOnP p rest
    else consHead c (splitOnP p rest)

/-- Drop leading whitespace, the left half of JavaScript `trim()`. -/
def trimL (l : List Char) : List Char := l.dropWhile Char.isWhitespace

/-- Drop trailing whitespace, the right half of JavaScript `trim()`. -/
def trimR (l : List Char) : List Char := (l.reverse.dropWhile Char.isWhitespace).reverse

/-- JavaScript `String.prototype.trim` on a character list (restricted to
ASCII whitespace, the only whitespace occurring in the scraped output). -/
def trimChars (l : List Char) : List Char := trimR (trimL l)

/-- The suffix just after the first occurrence of `pat` in `l`,
or `none` when `pat` does not occur (`pat` is nonempty in all uses). -/
def afterFirst (pat : List Char) : List Char → Option (List Char)
  | [] => none
  | c :: rest =>
    if pat.isPrefixOf (c :: rest) then some ((c :: rest).drop pat.length)
    else afterFirst pat rest

/-- Whether `pat` occurs contiguously in `l` (`pat` nonempty in all uses). -/
def containsSeq (pat : List Char) : List Char → Bool
  | [] => pat.isEmpty
  | c :: rest => pat.isPrefixOf (c :: rest) || containsSeq pat rest

/-! ## ReadinessPoller: `waitForVpnConnection` (index.js lines 98-141) -/

/-- `/L2TP-PSK.*ESTABLISHED/.test(ipsecOutput)`: in JavaScript `.` matches
neither `\n` nor `\r`, so the regex matches exactly when some maximal
separator-free segment contains `L2TP-PSK` followed by `ESTABLISHED`.
Only the first occurrence of `L2TP-PSK` in a segment need be checked:
the suffix of any later occurrence is a suffix of the first one's. -/
def ipsecOkOf (s : String) : Bool :=
  (splitOnP (fun c => c == '\n' || c == '\r') s.data).any fun seg =>
    match afterFirst "L2TP-PSK".data seg with
    | some suf => containsSeq "ESTABLISHED".data suf
    | none => false

/-- `ifaceOutput.split('\n').some(line => line.trim().startsWith('inet '))`
(index.js line 126). -/
def pppOkOf (s : String) : Bool :=
  (splitOnP (fun c => c == '\n') s.data).any fun l =>
    List.isPrefixOf "inet ".data (trimChars l)

/-- What one poll tick observes: the stdout of `sudo ipsec status` and of
`ip a s ppp0`, each `none` when that command threw (nonzero exit). -/
structure TickObs where
  ipsecQ : Option String
  ifaceQ : Option String
deriving DecidableEq

/-- Whether a tick makes the loop body reach `return true` (index.js lines
105-130): if the IPsec query throws the interface query is never run and
the `catch` swallows the error; if the interface query throws likewise;
otherwise both scraped predicates must hold. -/
def tickReady (t : TickObs) : Bool :=
  match t.ipsecQ with
  | none => false
  | some o1 =>
    match t.ifaceQ with
    | none => false
    | some o2 => ipsecOkOf o1 && pppOkOf o2

/-- The `while (Date.now() - start < timeout)` loop, idealized so that tick
`k` begins at elapsed time `k * interval` (each iteration ends in a sleep
of `interval`; command execution time is abstracted away).  Fuel bounds
the recursion; `timeout + 1` units suffice for every positive interval.
Returns the index of the tick at which `return true` fired, if any. -/
def pollLoopFuel (env : Nat → TickObs) (timeout interval : Nat) : Nat → Nat → Option Nat
  | 0, _ => none
  | fuel + 1, k =>
    if k * interval < timeout then
      if tickReady (env k) then some k
      else pollLoopFuel env timeout interval fuel (k + 1)
    else none

/-- Outcome of `waitForVpnConnection`: normal return at some tick, the
timeout `Error` carrying the daemon log, or — when `fs.readFile` of the
log rejects inside the `throw` expression — the propagated read error. -/
inductive VpnWaitResult where
  | ready (tick : Nat)
  | timeoutErr (msg : String)
  | logReadFailed (err : String)
deriving DecidableEq

/-- The fixed text of index.js line 139. -/
def timeoutMsgHead : String :=
  "VPN connection timeout: IPsec or PPP interface not ready. Content of /var/log/xl2tpd.log:\n"

/-- `waitForVpnConnection(timeout, interval)` (index.js lines 98-141).
`env k` is what the two status queries of tick `k` would observe;
`logRead` is the outcome `fs.readFile('/var/log/xl2tpd.log', 'utf8')`
would have at timeout time.  Note the `await fs.readFile` sits inside the
`throw` expression, so a rejected read propagates *instead of* the
timeout `Error`. -/
def waitForVpnConnection (env : Nat → TickObs) (logRead : Except String String)
    (timeout interval : Nat) : VpnWaitResult :=
  match pollLoopFuel env timeout interval (timeout + 1) 0 with
  | some k => VpnWaitResult.ready k
  | none =>
    match logRead with
    | Except.ok log => VpnWaitResult.timeoutErr (timeoutMsgHead ++ log)
    | Except.error e => VpnWaitResult.logReadFailed e

/-! ## RouteManager: the routing phase of `startVPN` (index.js lines 154-168) -/

/-- Greedy digit run: `(l.takeWhile isDigit, l.dropWhile isDigit)`. -/
def takeDigits : List Char → List Char × List Char
  | [] => ([], [])
  | c :: rest =>
    if c.isDigit then
      let (d, r) := takeDigits rest
      (c :: d, r)
    else ([], c :: rest)

/-- Match `\d+\.\d+\.\d+\.\d+` at the head of `l`, returning the captured
characters.  The pattern is deterministic: each `\d+` is a maximal digit
run (shortening a run before a required `.` cannot help, as the next
character would still be a digit). -/
def matchIpv4 (l : List Char) : Option (List Char) :=
  let (d1, r1) := takeDigits l
  if d1 = [] then none else
  match r1 with
  | '.' :: r1' =>
    let (d2, r2) := takeDigits r1'
    if d2 = [] then none else
    match r2 with
    | '.' :: r2' =>
      let (d3, r3) := takeDigits r2'
      if d3 = [] then none else
      match r3 with
      | '.' :: r3' =>
        let (d4, _) := takeDigits r3'
        if d4 = [] then none else
        some (d1 ++ '.' :: d2 ++ '.' :: d3 ++ '.' :: d4)
      | _ => none
    | _ => none
  | _ => none

/-- First match of `/via (\d+\.\d+\.\d+\.\d+)/` in a chunk: the regex
engine tries each start position left to right (index.js line 160). -/
def firstViaIpv4 : List Char → Option (List Char)
  | [] => none
  | c :: rest =>
    if "via ".data.isPrefixOf (c :: rest) then
      match matchIpv4 ((c :: rest).drop 4) with
      | some ip => some ip
      | none => firstViaIpv4 rest
    else firstViaIpv4 rest

/-- The stdout listener of `ip route get <server>`: each data chunk is
matched and a successful match overwrites `gateway` (index.js 156-164);
the variable starts as the empty string. -/
def extractGatewayFromChunks (chunks : List String) : String :=
  chunks.foldl
    (fun acc chunk =>
      match firstViaIpv4 chunk.data with
      | some g => String.mk g
      | none => acc)
    ""

/-- A route-table mutation issued by the routing phase. -/
inductive RouteCmd where
  | addHost (server gateway : String)
  | replaceDefault
deriving DecidableEq

/-- The routing phase of `startVPN` (index.js lines 154-168): resolve the
gateway from the `ip route get` output chunks; on an empty capture throw
before touching the route table, otherwise issue
`ip route add <server> via <gateway> dev eth0` and then
`ip route replace default dev ppp0`.  Returns the mutations issued in
order, paired with the thrown error if any. -/
def commitRoutes (server : String) (chunks : List String) :
    List RouteCmd × Option String :=
  let gateway := extractGatewayFromChunks chunks
  if gateway = "" then ([], some "Could not determine gateway to VPN server")
  else ([RouteCmd.addHost server gateway, RouteCmd.replaceDefault], none)

/-! ## SecretFileWriter: `createFileWithSudo` (index.js lines 6-17) -/

/-- `path.split('/').pop()` (index.js line 7): the characters after the
last `/`, i.e. the whole path when it has no `/`. -/
def basenameOf (path : String) : String :=
  String.mk ((path.data.reverse.takeWhile fun c => c ≠ '/').reverse)

/-- `path.substring(0, path.lastIndexOf('/'))` (index.js line 10):
everything before the last `/`, the empty string when there is none. -/
def dirnameOf (path : String) : String :=
  String.mk (((path.data.reverse.dropWhile fun c => c ≠ '/').drop 1).reverse)

/-- A filesystem operation issued by `createFileWithSudo`, in order:
plain (default-permission) write of the staged file, `sudo mkdir -p`,
`sudo mv`, `sudo chmod`. -/
inductive FileOp where
  | writeTemp (path content : String)
  | mkdirP (dir : String)
  | mv (src dst : String)
  | chmod (mode path : String)
deriving DecidableEq

/-- Outcomes of the four external steps of `createFileWithSudo`:
`none` is success, `some e` means that step throws `e`. -/
structure SudoFsEnv where
  writeTempE : Option String
  mkdirE : Option String
  mvE : Option String
  chmodE : Option String

/-- The `mv`/`chmod` tail of `createFileWithSudo` (index.js lines 15-16). -/
def mvChmodSteps (pre : List FileOp) (tempFile path : String) (env : SudoFsEnv) :
    List FileOp × Option String :=
  match env.mvE with
  | some e => (pre, some e)
  | none =>
    match env.chmodE with
    | some e => (pre ++ [FileOp.mv tempFile path], some e)
    | none => (pre ++ [FileOp.mv tempFile path, FileOp.chmod "600" path], none)

/-- `createFileWithSudo(path, content)` (index.js lines 6-17): stage the
content at `/tmp/<basename>`, `sudo mkdir -p` the parent directory when
it is nonempty, `sudo mv` the staged file into place, `sudo chmod 600`
it.  An `await`ed failure at any step propagates immediately (the run is
aborted by the top-level catch), so the returned trace holds exactly the
operations completed before the failure. -/
def createFileWithSudo (path content : String) (env : SudoFsEnv) :
    List FileOp × Option String :=
  let tempFile := "/tmp/" ++ basenameOf path
  match env.writeTempE with
  | some e => ([], some e)
  | none =>
    let pre := [FileOp.writeTemp tempFile content]
    if dirnameOf path = "" then mvChmodSteps pre tempFile path env
    else
      match env.mkdirE with
      | some e => (pre, some e)
      | none => mvChmodSteps (pre ++ [FileOp.mkdirP (dirnameOf path)]) tempFile path env

/-! ## ConfigGenerator: artifact contents (index.js lines 27-96) -/

/-- The `/etc/ipsec.conf` template up to and including the comment line
before `right=` (index.js lines 29-51), ending in the newline that
precedes the final interpolated line. -/
def ipsecConfHead : String :=
  "\nconfig setup\n\nconn L2TP-PSK\n    # Use IKEv1 for key exchange (IKEv2 is typically used in IPsec only setups, without L2TP)\n    keyexchange=ikev1\n\n    # Use these ciphers (see full list here https://wiki.strongswan.org/projects/strongswan/wiki/IKEv1CipherSuites):\n    # - aes128-sha256-modp2048: the most widely supported\n    # - aes256-sha256-modp2048: a stronger alternative, not as widely supported\n    # - aes256-sha512-modp4096: the strongest, but unlikely to be supported\n    ike=aes128-sha256-modp2048,aes256-sha256-modp2048,aes256-sha512-modp4096\n\n    # Start the connection when the IPsec service starts\n    auto=start\n\n    # Authenticate using a pre-shared key\n    authby=psk\n\n    # Use IPsec only as a transport mode and not a tunnel on its own\n    type=transport\n\n    # IP address of the VPN server\n"

/-- The `/etc/ipsec.conf` content for a given server (index.js 29-53). -/
def ipsecConfContent (server : String) : String :=
  ipsecConfHead ++ "    right=" ++ server ++ "\n"

/-- The `/etc/ipsec.secrets` content (index.js line 55): the template
literal `<server> : PSK "<psk>"`, with no surrounding whitespace. -/
def ipsecSecretsContent (server psk : String) : String :=
  server ++ " : PSK \"" ++ psk ++ "\""

/-! ## Orchestration order: `run` on the success path (index.js 176-197) -/

/-- An externally visible event of the orchestration. -/
inductive Ev where
  | aptUpdate
  | aptInstall
  | writeArtifact (path : String)
  | symlink (target source : String)
  | ipsecStart
  | xl2tpdStart
  | vpnReady
  | gatewayQuery
  | routeAddHost
  | routeReplaceDefault
deriving DecidableEq

/-- Events of `createConfigFiles` (index.js lines 27-96), in program
order: the five artifacts, then the resolver symlink. -/
def createConfigFilesEvents : List Ev :=
  [Ev.writeArtifact "/etc/ipsec.conf",
   Ev.writeArtifact "/etc/ipsec.secrets",
   Ev.writeArtifact "/etc/ppp/options.l2tpd.client",
   Ev.writeArtifact "/etc/xl2tpd/xl2tpd.conf",
   Ev.writeArtifact "/etc/resolv-vpn.conf",
   Ev.symlink "/etc/resolv.conf" "/etc/resolv-vpn.conf"]

/-- Events of `startVPN` (index.js lines 143-169), in program order:
daemon launches, the poller returning, gateway query, route mutations. -/
def startVPNEvents : List Ev :=
  [Ev.ipsecStart, Ev.xl2tpdStart, Ev.vpnReady,
   Ev.gatewayQuery, Ev.routeAddHost, Ev.routeReplaceDefault]

/-- The event trace of a successful `run()` (index.js lines 176-197):
`installTools`, then `createConfigFiles`, then `startVPN`. -/
def runEvents : List Ev :=
  [Ev.aptUpdate, Ev.aptInstall] ++ createConfigFilesEvents ++ startVPNEvents

/-! ## Poller lemmas -/

theorem pollLoopFuel_none (env : Nat → TickObs) (t i : Nat)
    (h : ∀ j, j * i < t → tickReady (env j) = false) :
    ∀ fuel k, pollLoopFuel env t i fuel k = none := by
  intro fuel
  induction fuel with
  | zero => intro k; rfl
  | succ n ih =>
    intro k
    unfold pollLoopFuel
    by_cases hk : k * i < t
    · rw [if_pos hk, h k hk]
      simpa using ih (k + 1)
    · rw [if_neg hk]

theorem pollLoopFuel_first (env : Nat → TickObs) (t i m : Nat)
    (hm : m * i < t) (hr : tickReady (env m) = true) :
    ∀ fuel k, k ≤ m → m + 1 ≤ fuel + k →
      (∀ j, k ≤ j → j < m → tickReady (env j) = false) →
      pollLoopFuel env t i fuel k = some m := by
  intro fuel
  induction fuel with
  | zero => intro k hk hf _; omega
  | succ n ih =>
    intro k hk hf hless
    unfold pollLoopFuel
    have hkt : k * i < t := lt_of_le_of_lt (Nat.mul_le_mul_right i hk) hm
    rw [if_pos hkt]
    rcases eq_or_lt_of_le hk with heq | hlt
    · subst heq
      rw [hr]
      simp
    · rw [hless k le_rfl hlt]
      simpa using ih (k + 1) hlt (by omega)
        (fun j hj hjm => hless j (le_trans (Nat.le_succ k) hj) hjm)

theorem pollLoopFuel_some (env : Nat → TickObs) (t i : Nat) :
    ∀ fuel k m, pollLoopFuel env t i fuel k = some m →
      tickReady (env m) = true ∧ m * i < t ∧ k ≤ m := by
  intro fuel
  induction fuel with
  | zero => intro k m h; exact absurd h (by simp [pollLoopFuel])
  | succ n ih =>
    intro k m h
    unfold pollLoopFuel at h
    by_cases hkt : k * i < t
    · rw [if_pos hkt] at h
      by_cases hr : tickReady (env k) = true
      · rw [if_pos hr] at h
        obtain rfl : k = m := by injection h
        exact ⟨hr, hkt, le_rfl⟩
      · rw [if_neg hr] at h
        obtain ⟨a, b, c⟩ := ih (k + 1) m h
        exact ⟨a, b, by omega⟩
    · rw [if_neg hkt] at h
      cases h

theorem pollLoopFuel_congr (env env' : Nat → TickObs) (t i : Nat)
    (h : ∀ j, tickReady (env j) = tickReady (env' j)) :
    ∀ fuel k, pollLoopFuel env t i fuel k = pollLoopFuel env' t i fuel k := by
  intro fuel
  induction fuel with
  | zero => intro k; rfl
  | succ n ih =>
    intro k
    unfold pollLoopFuel
    rw [h k, ih (k + 1)]

/-! ## Claims about the ReadinessPoller -/

/-- C1: with the default 30-second timeout and 1-second interval, if in a
single tick the IPsec status text matches the `L2TP-PSK … ESTABLISHED`
pattern and some line of the `ppp0` interface text, after trimming,
begins with `inet `, then `waitForVpnConnection` returns Ready at that
tick or an earlier one, regardless of what any earlier tick observed. -/
theorem awaitReady_ready_same_tick (env : Nat → TickObs) (logRead : Except String String)
    (k : Nat) (o1 o2 : String)
    (hk : k * 1000 < 30000)
    (h1 : (env k).ipsecQ = some o1) (h2 : ipsecOkOf o1 = true)
    (h3 : (env k).ifaceQ = some o2) (h4 : pppOkOf o2 = true) :
    ∃ j ≤ k, waitForVpnConnection env logRead 30000 1000 = VpnWaitResult.ready j := by
  have hr : tickReady (env k) = true := by
    simp [tickReady, h1, h3, h2, h4]
  have hex : ∃ j, tickReady (env j) = true := ⟨k, hr⟩
  have hm := Nat.find_spec hex
  have hmk : Nat.find hex ≤ k := Nat.find_min' hex hr
  have hmin : ∀ j, j < Nat.find hex → tickReady (env j) = false := by
    intro j hj
    simpa using Nat.find_min hex hj
  have hmt : Nat.find hex * 1000 < 30000 :=
    lt_of_le_of_lt (Nat.mul_le_mul_right 1000 hmk) hk
  have hpoll : pollLoopFuel env 30000 1000 30001 0 = some (Nat.find hex) :=
    pollLoopFuel_first env 30000 1000 (Nat.find hex) hmt hm 30001 0 (Nat.zero_le _)
      (by omega) (fun j _ hj => hmin j hj)
  refine ⟨Nat.find hex, hmk, ?_⟩
  unfold waitForVpnConnection
  rw [hpoll]

/-- Tick observations for the witness of C1: the spec's example texts. -/
def c1EnvW : Nat → TickObs := fun _ =>
  ⟨some "Security Associations (1 up, 0 connecting):\n L2TP-PSK[1]: ESTABLISHED 5 seconds ago",
   some "2: ppp0: mtu 1410\n    inet 10.0.0.5/24 scope global ppp0"⟩

theorem awaitReady_ready_same_tick_witness :
    0 * 1000 < 30000 ∧
    (c1EnvW 0).ipsecQ =
      some "Security Associations (1 up, 0 connecting):\n L2TP-PSK[1]: ESTABLISHED 5 seconds ago" ∧
    ipsecOkOf "Security Associations (1 up, 0 connecting):\n L2TP-PSK[1]: ESTABLISHED 5 seconds ago" = true ∧
    (c1EnvW 0).ifaceQ = some "2: ppp0: mtu 1410\n    inet 10.0.0.5/24 scope global ppp0" ∧
    pppOkOf "2: ppp0: mtu 1410\n    inet 10.0.0.5/24 scope global ppp0" = true ∧
    ∃ j ≤ 0, waitForVpnConnection c1EnvW (Except.ok "") 30000 1000 = VpnWaitResult.ready j :=
  ⟨by decide, rfl, by decide, rfl, by decide,
    awaitReady_ready_same_tick c1EnvW (Except.ok "") 0 _ _ (by decide) rfl (by decide) rfl (by decide)⟩

/-- C2: when the two predicates never hold, the loop runs its 30 ticks and
throws; the diagnostic payload is the daemon log when the log is
readable, but when `fs.readFile` rejects, the awaited rejection inside
the `throw` expression propagates *instead of* the timeout error — the
secondary failure masks it, contradicting the claim. -/
theorem waitForVpn_timeout_diag_and_masking :
    waitForVpnConnection (fun _ => ⟨none, none⟩)
        (Except.ok "xl2tpd: Connecting to host 203.0.113.5") 30000 1000
      = VpnWaitResult.timeoutErr (timeoutMsgHead ++ "xl2tpd: Connecting to host 203.0.113.5") ∧
    waitForVpnConnection (fun _ => ⟨none, none⟩)
        (Except.error "ENOENT: no such file or directory, open /var/log/xl2tpd.log") 30000 1000
      = VpnWaitResult.logReadFailed "ENOENT: no such file or directory, open /var/log/xl2tpd.log" :=
  ⟨by decide, by decide⟩

/-- C5: a tick whose IPsec query or interface query throws is swallowed:
the poller neither returns Ready at that tick nor behaves differently
from a run in which that tick merely observed unready output — polling
continues until readiness or the overall timeout. -/
theorem awaitReady_query_failure_swallowed (env : Nat → TickObs)
    (logRead : Except String String) (k : Nat)
    (hfail : (env k).ipsecQ = none ∨ (env k).ifaceQ = none) :
    waitForVpnConnection env logRead 30000 1000 ≠ VpnWaitResult.ready k ∧
    waitForVpnConnection env logRead 30000 1000 =
      waitForVpnConnection (fun j => if j = k then ⟨some "", some ""⟩ else env j)
        logRead 30000 1000 := by
  have hk : tickReady (env k) = false := by
    rcases hfail with h | h
    · simp [tickReady, h]
    · rcases h1 : (env k).ipsecQ with _ | o1
      · simp [tickReady, h1]
      · simp [tickReady, h1, h]
  constructor
  · intro hcon
    unfold waitForVpnConnection at hcon
    rcases hp : pollLoopFuel env 30000 1000 30001 0 with _ | m
    · rw [hp] at hcon
      rcases logRead with e | l <;> simp at hcon
    · rw [hp] at hcon
      have hm := (pollLoopFuel_some env 30000 1000 30001 0 m hp).1
      have hmk : m = k := by injection hcon
      rw [hmk, hk] at hm
      cases hm
  · have hcong : ∀ j, tickReady (env j) =
        tickReady ((fun j => if j = k then (⟨some "", some ""⟩ : TickObs) else env j) j) := by
      intro j
      by_cases hj : j = k
      · subst hj
        show tickReady (env j) = tickReady (if j = j then ⟨some "", some ""⟩ else env j)
        rw [if_pos rfl, hk]
        decide
      · show tickReady (env j) = tickReady (if j = k then ⟨some "", some ""⟩ else env j)
        rw [if_neg hj]
    unfold waitForVpnConnection
    rw [pollLoopFuel_congr env _ 30000 1000 hcong 30001 0]

/-- Tick observations for the witness of C5: the IPsec query throws at
every tick while the interface query succeeds. -/
def c5EnvW : Nat → TickObs := fun _ => ⟨none, some "    inet 10.0.0.5/24"⟩

theorem awaitReady_query_failure_swallowed_witness :
    ((c5EnvW 0).ipsecQ = none ∨ (c5EnvW 0).ifaceQ = none) ∧
    (waitForVpnConnection c5EnvW (Except.ok "") 30000 1000 ≠ VpnWaitResult.ready 0 ∧
     waitForVpnConnection c5EnvW (Except.ok "") 30000 1000 =
       waitForVpnConnection (fun j => if j = 0 then ⟨some "", some ""⟩ else c5EnvW j)
         (Except.ok "") 30000 1000) :=
  ⟨Or.inl rfl, awaitReady_query_failure_swallowed c5EnvW (Except.ok "") 0 (Or.inl rfl)⟩

/-! ## Claims about the RouteManager -/

theorem extractGateway_empty_of_no_match (chunks : List String) :
    ∀ acc : String, (∀ c ∈ chunks, firstViaIpv4 c.data = none) →
      chunks.foldl
        (fun acc chunk =>
          match firstViaIpv4 chunk.data with
          | some g => String.mk g
          | none => acc)
        acc = acc := by
  induction chunks with
  | nil => intro acc _; rfl
  | cons c cs ih =>
    intro acc h
    simp only [List.foldl_cons]
    rw [h c (List.mem_cons_self c cs)]
    exact ih acc fun x hx => h x (List.mem_cons_of_mem c hx)

/-- C3: in every execution of the routing phase, either the gateway
resolution fails (and no route command is issued at all), or the host
route to the server via the discovered gateway is issued strictly before
the default-route replacement; no other command order is possible. -/
theorem commitRoutes_host_before_default (server : String) (chunks : List String) :
    commitRoutes server chunks = ([], some "Could not determine gateway to VPN server") ∨
    ∃ gw, gw ≠ "" ∧ commitRoutes server chunks =
      ([RouteCmd.addHost server gw, RouteCmd.replaceDefault], none) := by
  by_cases hg : extractGatewayFromChunks chunks = ""
  · left
    simp [commitRoutes, hg]
  · right
    exact ⟨extractGatewayFromChunks chunks, hg, by simp [commitRoutes, hg]⟩

/-- C4: when no chunk of the `ip route get` output matches
`via <ipv4>`, the routing phase throws the fatal gateway error and
issues no route mutation whatsoever. -/
theorem commitRoutes_no_gateway (server : String) (chunks : List String)
    (h : ∀ c ∈ chunks, firstViaIpv4 c.data = none) :
    commitRoutes server chunks = ([], some "Could not determine gateway to VPN server") := by
  have hg : extractGatewayFromChunks chunks = "" :=
    extractGateway_empty_of_no_match chunks "" h
  simp [commitRoutes, hg]

theorem commitRoutes_no_gateway_witness :
    (∀ c ∈ ["203.0.113.5 dev eth0 scope link src 10.0.0.2 uid 0"],
      firstViaIpv4 c.data = none) ∧
    commitRoutes "203.0.113.5" ["203.0.113.5 dev eth0 scope link src 10.0.0.2 uid 0"] =
      ([], some "Could not determine gateway to VPN server") :=
  ⟨by decide, commitRoutes_no_gateway "203.0.113.5" _ (by decide)⟩

/-! ## Claims about the SecretFileWriter -/

/-- C6: `createFileWithSudo` stages the content, then (the parent
directory existing) moves it into place with `sudo`, then forces mode
600 as the final operation; a failure at the staging write, the mkdir,
the move or the chmod aborts immediately with that step's own error and
issues none of the later operations. -/
theorem createFileWithSudo_contract (path content e : String) (w x y : Option String)
    (h : dirnameOf path ≠ "") :
    createFileWithSudo path content ⟨none, none, none, none⟩ =
      ([FileOp.writeTemp ("/tmp/" ++ basenameOf path) content,
        FileOp.mkdirP (dirnameOf path),
        FileOp.mv ("/tmp/" ++ basenameOf path) path,
        FileOp.chmod "600" path], none) ∧
    createFileWithSudo path content ⟨some e, w, x, y⟩ = ([], some e) ∧
    createFileWithSudo path content ⟨none, some e, x, y⟩ =
      ([FileOp.writeTemp ("/tmp/" ++ basenameOf path) content], some e) ∧
    createFileWithSudo path content ⟨none, none, some e, y⟩ =
      ([FileOp.writeTemp ("/tmp/" ++ basenameOf path) content,
        FileOp.mkdirP (dirnameOf path)], some e) ∧
    createFileWithSudo path content ⟨none, none, none, some e⟩ =
      ([FileOp.writeTemp ("/tmp/" ++ basenameOf path) content,
        FileOp.mkdirP (dirnameOf path),
        FileOp.mv ("/tmp/" ++ basenameOf path) path], some e) := by
  refine ⟨?_, ?_, ?_, ?_, ?_⟩ <;> simp [createFileWithSudo, mvChmodSteps, h]

theorem createFileWithSudo_contract_witness :
    dirnameOf "/etc/ipsec.secrets" ≠ "" ∧
    (createFileWithSudo "/etc/ipsec.secrets" "s" ⟨none, none, none, none⟩ =
      ([FileOp.writeTemp ("/tmp/" ++ basenameOf "/etc/ipsec.secrets") "s",
        FileOp.mkdirP (dirnameOf "/etc/ipsec.secrets"),
        FileOp.mv ("/tmp/" ++ basenameOf "/etc/ipsec.secrets") "/etc/ipsec.secrets",
        FileOp.chmod "600" "/etc/ipsec.secrets"], none) ∧
    createFileWithSudo "/etc/ipsec.secrets" "s" ⟨some "EACCES", none, none, none⟩ =
      ([], some "EACCES") ∧
    createFileWithSudo "/etc/ipsec.secrets" "s" ⟨none, some "EACCES", none, none⟩ =
      ([FileOp.writeTemp ("/tmp/" ++ basenameOf "/etc/ipsec.secrets") "s"], some "EACCES") ∧
    createFileWithSudo "/etc/ipsec.secrets" "s" ⟨none, none, some "EACCES", none⟩ =
      ([FileOp.writeTemp ("/tmp/" ++ basenameOf "/etc/ipsec.secrets") "s",
        FileOp.mkdirP (dirnameOf "/etc/ipsec.secrets")], some "EACCES") ∧
    createFileWithSudo "/etc/ipsec.secrets" "s" ⟨none, none, none, some "EACCES"⟩ =
      ([FileOp.writeTemp ("/tmp/" ++ basenameOf "/etc/ipsec.secrets") "s",
        FileOp.mkdirP (dirnameOf "/etc/ipsec.secrets"),
        FileOp.mv ("/tmp/" ++ basenameOf "/etc/ipsec.secrets") "/etc/ipsec.secrets"],
        some "EACCES")) :=
  ⟨by decide,
   createFileWithSudo_contract "/etc/ipsec.secrets" "s" "EACCES" none none none (by decide)⟩

/-- Whether a file operation is a permission change. -/
def isChmodOp : FileOp → Bool
  | FileOp.chmod _ _ => true
  | _ => false

/-- C10: on a successful `createFileWithSudo` run the restrictive mode is
applied only as the very last operation: the trace is exactly staging
write to `/tmp/<basename>` (with default permissions), parent-directory
creation, move to the final path, and only then `chmod 600` — so the
content sits at the temp path and transiently at the final path before
the restrictive mode is in force. -/
theorem createFileWithSudo_chmod_only_last (path content : String)
    (h : dirnameOf path ≠ "") :
    createFileWithSudo path content ⟨none, none, none, none⟩ =
      ([FileOp.writeTemp ("/tmp/" ++ basenameOf path) content,
        FileOp.mkdirP (dirnameOf path),
        FileOp.mv ("/tmp/" ++ basenameOf path) path,
        FileOp.chmod "600" path], none) ∧
    (createFileWithSudo path content ⟨none, none, none, none⟩).1.dropLast.all
      (fun op => !isChmodOp op) = true ∧
    (createFileWithSudo path content ⟨none, none, none, none⟩).1.getLast? =
      some (FileOp.chmod "600" path) := by
  refine ⟨?_, ?_, ?_⟩ <;> simp [createFileWithSudo, mvChmodSteps, h, isChmodOp]

theorem createFileWithSudo_chmod_only_last_witness :
    dirnameOf "/etc/ppp/options.l2tpd.client" ≠ "" ∧
    (createFileWithSudo "/etc/ppp/options.l2tpd.client" "c" ⟨none, none, none, none⟩ =
      ([FileOp.writeTemp ("/tmp/" ++ basenameOf "/etc/ppp/options.l2tpd.client") "c",
        FileOp.mkdirP (dirnameOf "/etc/ppp/options.l2tpd.client"),
        FileOp.mv ("/tmp/" ++ basenameOf "/etc/ppp/options.l2tpd.client")
          "/etc/ppp/options.l2tpd.client",
        FileOp.chmod "600" "/etc/ppp/options.l2tpd.client"], none) ∧
    (createFileWithSudo "/etc/ppp/options.l2tpd.client" "c"
        ⟨none, none, none, none⟩).1.dropLast.all (fun op => !isChmodOp op) = true ∧
    (createFileWithSudo "/etc/ppp/options.l2tpd.client" "c"
        ⟨none, none, none, none⟩).1.getLast? =
      some (FileOp.chmod "600" "/etc/ppp/options.l2tpd.client")) :=
  ⟨by decide,
   createFileWithSudo_chmod_only_last "/etc/ppp/options.l2tpd.client" "c" (by decide)⟩

/-! ## Claims about the ConfigGenerator -/

/-- C7: the secrets artifact content is exactly
`<server> : PSK "<psk>"`: it equals the interpolation verbatim, its last
character is the closing quote (no trailing whitespace or newline ever),
its first character is the server's own first character (or the space of
the separator only when the server is empty), and it contains a newline
only if the server or the PSK themselves do. -/
theorem ipsecSecrets_exact (server psk : String) :
    ipsecSecretsContent server psk = server ++ " : PSK \"" ++ psk ++ "\"" ∧
    (ipsecSecretsContent server psk).data.getLast? = some '"' ∧
    (('\n' ∈ (ipsecSecretsContent server psk).data) ↔
      ('\n' ∈ server.data ∨ '\n' ∈ psk.data)) ∧
    (ipsecSecretsContent server psk).data.head? = (server.data ++ [' ']).head? := by
  have hdata : (ipsecSecretsContent server psk).data =
      server.data ++ " : PSK \"".data ++ psk.data ++ "\"".data := by
    simp [ipsecSecretsContent, String.data_append]
  refine ⟨rfl, ?_, ?_, ?_⟩
  · rw [hdata]
    exact List.getLast?_concat _
  · rw [hdata]
    simp only [List.mem_append]
    have h1 : ('\n' ∈ " : PSK \"".data) = False := by decide
    have h2 : ('\n' ∈ "\"".data) = False := by decide
    rw [h1, h2]
    tauto
  · rw [hdata]
    cases hd : server.data <;> rfl

/-! ## Claims about orchestration order (C9) -/

/-- C9 counterexample: in the successful-run event trace the unique
resolver-symlink event sits at index 7, while `ipsec start` is at
index 8 and the poller confirms readiness at index 10 — the symlink into
the active resolver path is created *before* the daemons are started and
before readiness, refuting the claim that it happens only on success. -/
theorem resolvSymlink_before_ready :
    runEvents.get? 7 = some (Ev.symlink "/etc/resolv.conf" "/etc/resolv-vpn.conf") ∧
    runEvents.get? 10 = some Ev.vpnReady ∧
    runEvents.countP
      (fun e => decide (e = Ev.symlink "/etc/resolv.conf" "/etc/resolv-vpn.conf")) = 1 ∧
    7 < 10 := by decide

/-- C9 amended: the resolver symlink is issued during configuration-file
creation, as the last configuration event — before `ipsec start`, before
`xl2tpd` starts, and before readiness is confirmed. -/
theorem resolvSymlink_in_config_phase :
    createConfigFilesEvents.getLast? =
      some (Ev.symlink "/etc/resolv.conf" "/etc/resolv-vpn.conf") ∧
    runEvents = [Ev.aptUpdate, Ev.aptInstall] ++ createConfigFilesEvents ++ startVPNEvents ∧
    runEvents.get? 8 = some Ev.ipsecStart ∧
    runEvents.get? 9 = some Ev.xl2tpdStart ∧
    runEvents.get? 10 = some Ev.vpnReady ∧
    runEvents.countP
      (fun e => decide (e = Ev.symlink "/etc/resolv.conf" "/etc/resolv-vpn.conf")) = 1 :=
  ⟨by decide, rfl, by decide, by decide, by decide, by decide⟩

/-! ## Split and trim lemmas (for the artifact-content claims) -/

theorem splitOnP_ne_nil (p : Char → Bool) : ∀ l, splitOnP p l ≠ [] := by
  intro l
  induction l with
  | nil => simp [splitOnP]
  | cons c rest ih =>
    by_cases hc : p c = true
    · simp [splitOnP, hc]
    · rcases hs : splitOnP p rest with _ | ⟨l', ls⟩
      · exact absurd hs ih
      · simp [splitOnP, hc, hs, consHead]

theorem splitOnP_append_sep (p : Char → Bool) (c : Char) (hc : p c = true) :
    ∀ a b, splitOnP p (a ++ c :: b) = splitOnP p a ++ splitOnP p b := by
  intro a
  induction a with
  | nil =>
    intro b
    simp [splitOnP, hc]
  | cons x a' ih =>
    intro b
    by_cases hx : p x = true
    · simp only [List.cons_append, splitOnP, List.append_eq, if_pos hx, ih b]
    · rcases hsa : splitOnP p a' with _ | ⟨h', t'⟩
      · exact absurd hsa (splitOnP_ne_nil p a')
      · simp only [List.cons_append, splitOnP, List.append_eq, if_neg hx, ih b, hsa,
          consHead]

theorem splitOnP_no_sep (p : Char → Bool) :
    ∀ b, (∀ x ∈ b, p x = false) → splitOnP p b = [b] := by
  intro b
  induction b with
  | nil => intro _; rfl
  | cons c b' ih =>
    intro h
    have hc : p c = false := h c (List.mem_cons_self c b')
    simp only [splitOnP, hc]
    rw [if_neg (by simp)]
    rw [ih fun x hx => h x (List.mem_cons_of_mem c hx)]
    rfl

theorem dropWhile_append_alt (p : Char → Bool) : ∀ a b : List Char,
    List.dropWhile p (a ++ b) =
      if List.dropWhile p a = [] then List.dropWhile p b
      else List.dropWhile p a ++ b := by
  intro a
  induction a with
  | nil => intro b; simp
  | cons x a' ih =>
    intro b
    by_cases hx : p x = true
    · simp [List.dropWhile_cons, hx, ih b]
    · simp [List.dropWhile_cons, hx]

theorem trimR_append (a b : List Char) :
    trimR (a ++ b) = if trimR b = [] then trimR a else a ++ trimR b := by
  unfold trimR
  rw [List.reverse_append, dropWhile_append_alt]
  by_cases hb : List.dropWhile Char.isWhitespace b.reverse = []
  · rw [if_pos hb, if_pos (by rw [hb]; rfl)]
  · rw [if_neg hb, if_neg (by simp [hb]), List.reverse_append, List.reverse_reverse]

theorem dropWhile_ws_right_line (sv : List Char) :
    List.dropWhile Char.isWhitespace ("    right=".data ++ sv) = "right=".data ++ sv := by
  have hs : Char.isWhitespace ' ' = true := by decide
  have hr : Char.isWhitespace 'r' = false := by decide
  show List.dropWhile Char.isWhitespace
      (' ' :: ' ' :: ' ' :: ' ' :: ("right=".data ++ sv)) = "right=".data ++ sv
  rw [List.dropWhile_cons, if_pos hs, List.dropWhile_cons, if_pos hs,
    List.dropWhile_cons, if_pos hs, List.dropWhile_cons, if_pos hs]
  show List.dropWhile Char.isWhitespace ('r' :: ("ight=".data ++ sv)) =
    'r' :: ("ight=".data ++ sv)
  rw [List.dropWhile_cons, if_neg (by simp [hr])]

theorem trimChars_right_line (sv : List Char) :
    trimChars ("    right=".data ++ sv) = "right=".data ++ trimR sv ∨
    trimChars ("    right=".data ++ sv) = "right=".data := by
  unfold trimChars trimL
  rw [dropWhile_ws_right_line, trimR_append]
  by_cases hb : trimR sv = []
  · right
    rw [if_pos hb]
    decide
  · left
    rw [if_neg hb]

theorem isPrefixOf_append_self (l t : List Char) : l.isPrefixOf (l ++ t) = true := by
  induction l with
  | nil => simp [List.isPrefixOf]
  | cons c l' ih => simp [List.isPrefixOf, ih]

theorem rightKey_right_line (sv : List Char) :
    "right=".data.isPrefixOf (trimChars ("    right=".data ++ sv)) = true := by
  rcases trimChars_right_line sv with h | h
  · rw [h]
    exact isPrefixOf_append_self _ _
  · rw [h]
    decide

theorem ikeKey_right_line (sv : List Char) :
    "ike=".data.isPrefixOf (trimChars ("    right=".data ++ sv)) = false := by
  rcases trimChars_right_line sv with h | h
  · rw [h]
    show ('i' :: "ke=".data).isPrefixOf ('r' :: ("ight=".data ++ trimR sv)) = false
    simp [List.isPrefixOf]
  · rw [h]
    decide

set_option maxRecDepth 40000

/-- The head of the `ipsec.conf` template without its final newline. -/
def ipsecConfHeadChars : List Char := ipsecConfHead.data.dropLast

theorem ipsecConfHead_data : ipsecConfHead.data = ipsecConfHeadChars ++ '\n' :: [] := by
  decide

/-- The lines of a generated artifact, as JavaScript `split('\n')` would
produce them. -/
def linesOf (s : String) : List (List Char) := splitOnP (fun c => c == '\n') s.data

theorem headChars_filter_right :
    (splitOnP (fun c => c == '\n') ipsecConfHeadChars).filter
      (fun l => "right=".data.isPrefixOf (trimChars l)) = [] := by decide

theorem headChars_filter_ike :
    (splitOnP (fun c => c == '\n') ipsecConfHeadChars).filter
      (fun l => "ike=".data.isPrefixOf (trimChars l)) =
    ["    ike=aes128-sha256-modp2048,aes256-sha256-modp2048,aes256-sha512-modp4096".data] := by
  decide

theorem ipsecConf_lines (server : String) (h : ('\n' : Char) ∉ server.data) :
    linesOf (ipsecConfContent server) =
      splitOnP (fun c => c == '\n') ipsecConfHeadChars ++
        ["    right=".data ++ server.data, []] := by
  have hd : (ipsecConfContent server).data =
      ipsecConfHeadChars ++ '\n' :: (("    right=".data ++ server.data) ++ '\n' :: []) := by
    show (ipsecConfHead ++ "    right=" ++ server ++ "\n").data = _
    rw [String.data_append, String.data_append, String.data_append, ipsecConfHead_data]
    simp [List.append_assoc]
  have hside : ∀ x ∈ "    right=".data ++ server.data, (x == '\n') = false := by
    intro x hx
    rcases List.mem_append.mp hx with hx | hx
    · exact (by decide : ∀ y ∈ "    right=".data, (y == '\n') = false) x hx
    · have hne : x ≠ '\n' := fun he => h (he ▸ hx)
      simp [hne]
  unfold linesOf
  rw [hd, splitOnP_append_sep _ '\n' (by decide), splitOnP_append_sep _ '\n' (by decide),
    splitOnP_no_sep _ _ hside]
  rfl

/-- C8: for every server without embedded newlines, the generated
`ipsec.conf` has exactly one line carrying a `right=` assignment — the
line `    right=<server>` — and exactly one `ike=` line, whose value
splits on commas into exactly the three cipher suites
`aes128-sha256-modp2048`, `aes256-sha256-modp2048`,
`aes256-sha512-modp4096`, in that preference order. -/
theorem ipsecConf_right_and_ciphers (server : String) (h : ('\n' : Char) ∉ server.data) :
    (linesOf (ipsecConfContent server)).filter
        (fun l => "right=".data.isPrefixOf (trimChars l)) =
      ["    right=".data ++ server.data] ∧
    (linesOf (ipsecConfContent server)).filter
        (fun l => "ike=".data.isPrefixOf (trimChars l)) =
      ["    ike=aes128-sha256-modp2048,aes256-sha256-modp2048,aes256-sha512-modp4096".data] ∧
    trimChars
        "    ike=aes128-sha256-modp2048,aes256-sha256-modp2048,aes256-sha512-modp4096".data
      = "ike=".data ++
        "aes128-sha256-modp2048,aes256-sha256-modp2048,aes256-sha512-modp4096".data ∧
    splitOnP (fun c => c == ',')
        "aes128-sha256-modp2048,aes256-sha256-modp2048,aes256-sha512-modp4096".data =
      ["aes128-sha256-modp2048".data, "aes256-sha256-modp2048".data,
       "aes256-sha512-modp4096".data] := by
  have hl := ipsecConf_lines server h
  refine ⟨?_, ?_, by decide, by decide⟩
  · rw [hl, List.filter_append, headChars_filter_right]
    have h1 := rightKey_right_line server.data
    have h2 : ("right=".data.isPrefixOf (trimChars ([] : List Char))) = false := by decide
    simp only [List.filter, h1, h2]
    rfl
  · rw [hl, List.filter_append, headChars_filter_ike]
    have h1 := ikeKey_right_line server.data
    have h2 : ("ike=".data.isPrefixOf (trimChars ([] : List Char))) = false := by decide
    simp only [List.filter, h1, h2]
    rfl

theorem ipsecConf_right_and_ciphers_witness :
    (('\n' : Char) ∉ "203.0.113.5".data) ∧
    ((linesOf (ipsecConfContent "203.0.113.5")).filter
        (fun l => "right=".data.isPrefixOf (trimChars l)) =
      ["    right=".data ++ "203.0.113.5".data] ∧
    (linesOf (ipsecConfContent "203.0.113.5")).filter
        (fun l => "ike=".data.isPrefixOf (trimChars l)) =
      ["    ike=aes128-sha256-modp2048,aes256-sha256-modp2048,aes256-sha512-modp4096".data] ∧
    trimChars
        "    ike=aes128-sha256-modp2048,aes256-sha256-modp2048,aes256-sha512-modp4096".data
      = "ike=".data ++
        "aes128-sha256-modp2048,aes256-sha256-modp2048,aes256-sha512-modp4096".data ∧
    splitOnP (fun c => c == ',')
        "aes128-sha256-modp2048,aes256-sha256-modp2048,aes256-sha512-modp4096".data =
      ["aes128-sha256-modp2048".data, "aes256-sha256-modp2048".data,
       "aes256-sha512-modp4096".data]) :=
  ⟨by decide, ipsecConf_right_and_ciphers "203.0.113.5" (by decide)⟩
